import Mathlib

/-
  Verification of the CORTX py-utils message-bus client abstraction
  (src/py-utils/src/utils/message_bus/message_bus_client.py).

  The client code is shallowly embedded: Python values are modelled by the
  inductive `Value`, the kwargs configuration dict by an association list
  `Config`, `MessageBusError` by the structure `MBError`, and each backend
  invocation (`MessageBus.*`) by a `BackendCall` constructor.  Every client
  method becomes a Lean function from the configuration to the list of
  backend calls it performs together with the error it raises, if any.
-/

namespace CortxMessageBus

/-- A Python runtime value, as far as the client code distinguishes them. -/
inductive Value where
  | pyNone
  | str (s : String)
  | int (n : Int)
  | bool (b : Bool)
  | list (vs : List Value)
  | dict (entries : List (String × Value))

/-- The kwargs dictionary `client_conf` captured by
`MessageBusClient.__init__`: an insertion-ordered mapping from option name
to value (keyword arguments cannot repeat a key). -/
abbrev Config := List (String × Value)

/-- The option names present in a configuration (`dict.keys()`). -/
def Config.keys (conf : Config) : List String := conf.map Prod.fst

/-- Python `conf[key]` for a key known to be present (`dict.__getitem__`). -/
def Config.getItem (conf : Config) (key : String) : Value :=
  match conf.lookup key with
  | some v => v
  | none => Value.pyNone

/-- `MessageBusError(rc, msg, *args)`: the numeric errno, the format
string, and the format arguments. -/
structure MBError where
  rc : Int
  msg : String
  args : List Value

/-- An outbound message handed to `send`: a `KvPayload` (identified by its
`.json` serialization), a plain string, or any other Python object. -/
inductive Msg where
  | kv (json : String)
  | str (s : String)
  | other (v : Value)

/-- Whether a message is neither a `KvPayload` nor a `str`. -/
def Msg.isInvalid : Msg → Bool
  | .other _ => true
  | _ => false

/-- The canonical wire string of a valid message: `KvPayload.json` for a
payload, the string itself otherwise.  (Unused on invalid messages.) -/
def Msg.toWire : Msg → String
  | .kv j => j
  | .str s => s
  | .other _ => ""

/-- One invocation of the backend interface (`MessageBus.*`). -/
inductive BackendCall where
  | init_client (client_type : String) (conf : Config)
  | list_message_types (client_id : Value)
  | register_message_type (client_id : Value) (message_types : List Value)
      (partitions : Int)
  | deregister_message_type (client_id : Value) (message_types : List Value)
  | add_concurrency (client_id : Value) (message_type : String)
      (concurrency_count : Int)
  | send (client_id : Value) (message_type : Value) (method : Value)
      (messages : List String)
  | delete (client_id : Value) (message_type : Value)
  | set_message_type_expire (client_id : Value) (message_type : String)
      (kwargs : Config)
  | receive (client_id : Value) (timeout : Value)
  | ack (client_id : Value)

/-- The state of a `MessageBusClient` object: the configuration stored at
construction (`self._client_conf`). -/
structure Client where
  client_conf : Config

namespace MessageBusClient

/-- `MessageBusClient.__init__`: calls `MessageBus.init_client` and stores
the kwargs dict verbatim. -/
def init (client_type : String) (client_conf : Config) :
    List BackendCall × Client :=
  ([BackendCall.init_client client_type client_conf], ⟨client_conf⟩)

/-- `MessageBusClient._get_conf`: raises `MessageBusError(errno.ENOENT, ...)`
naming the key and the configuration when the key is absent, otherwise
returns the stored value. -/
def get_conf (conf : Config) (key : String) : Except MBError Value :=
  if key ∈ conf.keys then
    Except.ok (conf.getItem key)
  else
    Except.error
      ⟨2, "Could not find key %s in client config %s",
        [Value.str key, Value.dict conf]⟩

/-- `MessageBusClient._get_str_message_list`: converts each message to a
string, raising `MessageBusError(errno.EINVAL, ...)` naming the first
message that is neither a `KvPayload` nor a `str`. -/
def get_str_message_list : List Msg → Except MBError (List String)
  | [] => Except.ok []
  | Msg.kv j :: rest =>
      (get_str_message_list rest).map (fun tl => j :: tl)
  | Msg.str s :: rest =>
      (get_str_message_list rest).map (fun tl => s :: tl)
  | Msg.other v :: _ =>
      Except.error
        ⟨22, "Invalid message format,                     not of type KvPayload or str. %s",
          [v]⟩

/-- `MessageBusClient.list_message_types`. -/
def list_message_types (conf : Config) : List BackendCall × Option MBError :=
  match get_conf conf "client_id" with
  | Except.error e => ([], some e)
  | Except.ok client_id => ([BackendCall.list_message_types client_id], none)

/-- `MessageBusClient.register_message_type`. -/
def register_message_type (conf : Config) (message_types : List Value)
    (partitions : Int) : List BackendCall × Option MBError :=
  match get_conf conf "client_id" with
  | Except.error e => ([], some e)
  | Except.ok client_id =>
      ([BackendCall.register_message_type client_id message_types partitions],
        none)

/-- `MessageBusClient.deregister_message_type`. -/
def deregister_message_type (conf : Config) (message_types : List Value) :
    List BackendCall × Option MBError :=
  match get_conf conf "client_id" with
  | Except.error e => ([], some e)
  | Except.ok client_id =>
      ([BackendCall.deregister_message_type client_id message_types], none)

/-- `MessageBusClient.add_concurrency`. -/
def add_concurrency (conf : Config) (message_type : String)
    (concurrency_count : Int) : List BackendCall × Option MBError :=
  match get_conf conf "client_id" with
  | Except.error e => ([], some e)
  | Except.ok client_id =>
      ([BackendCall.add_concurrency client_id message_type concurrency_count],
        none)

/-- `MessageBusClient.send`: reads `message_type`, `method` and `client_id`
from the configuration, converts the batch, and only then performs the one
backend send. -/
def send (conf : Config) (messages : List Msg) :
    List BackendCall × Option MBError :=
  match get_conf conf "message_type" with
  | Except.error e => ([], some e)
  | Except.ok message_type =>
    match get_conf conf "method" with
    | Except.error e => ([], some e)
    | Except.ok method =>
      match get_conf conf "client_id" with
      | Except.error e => ([], some e)
      | Except.ok client_id =>
        match get_str_message_list messages with
        | Except.error e => ([], some e)
        | Except.ok message_list =>
            ([BackendCall.send client_id message_type method message_list],
              none)

/-- `MessageBusClient.delete`. -/
def delete (conf : Config) : List BackendCall × Option MBError :=
  match get_conf conf "message_type" with
  | Except.error e => ([], some e)
  | Except.ok message_type =>
    match get_conf conf "client_id" with
    | Except.error e => ([], some e)
    | Except.ok client_id =>
        ([BackendCall.delete client_id message_type], none)

/-- `MessageBusClient.set_message_type_expire`. -/
def set_message_type_expire (conf : Config) (message_type : String)
    (kwargs : Config) : List BackendCall × Option MBError :=
  match get_conf conf "client_id" with
  | Except.error e => ([], some e)
  | Except.ok client_id =>
      ([BackendCall.set_message_type_expire client_id message_type kwargs],
        none)

/-- `MessageBusClient.receive`. -/
def receive (conf : Config) (timeout : Value) :
    List BackendCall × Option MBError :=
  match get_conf conf "client_id" with
  | Except.error e => ([], some e)
  | Except.ok client_id => ([BackendCall.receive client_id timeout], none)

/-- `MessageBusClient.ack`. -/
def ack (conf : Config) : List BackendCall × Option MBError :=
  match get_conf conf "client_id" with
  | Except.error e => ([], some e)
  | Except.ok client_id => ([BackendCall.ack client_id], none)

end MessageBusClient

/-- A Python `TypeError` raised when a call omits required positional
arguments; carries the names of the missing parameters. -/
structure PyTypeError where
  missing : List String

/-- `MessageBusAdmin.__init__(admin_id)`: Python binds the one required
positional argument before the body runs; when it is supplied the base
initializer is invoked with `client_type='admin', client_id=admin_id`. -/
def MessageBusAdmin.call (admin_id : Option Value) :
    List BackendCall × Except PyTypeError Client :=
  match admin_id with
  | some aid =>
      let (tr, c) := MessageBusClient.init "admin" [("client_id", aid)]
      (tr, Except.ok c)
  | none => ([], Except.error ⟨["admin_id"]⟩)

/-- `MessageProducer.__init__(producer_id, message_type, method=None)`:
`producer_id` and `message_type` are required positional arguments;
`method` defaults to `None`.  The base initializer receives
`client_type='producer', client_id=..., message_type=..., method=...`. -/
def MessageProducer.call (producer_id message_type method : Option Value) :
    List BackendCall × Except PyTypeError Client :=
  match producer_id, message_type with
  | some pid, some mt =>
      let m := method.getD Value.pyNone
      let (tr, c) := MessageBusClient.init "producer"
        [("client_id", pid), ("message_type", mt), ("method", m)]
      (tr, Except.ok c)
  | _, _ =>
      ([], Except.error
        ⟨(if producer_id.isNone then ["producer_id"] else []) ++
          (if message_type.isNone then ["message_type"] else [])⟩)

/-- `MessageConsumer.__init__(consumer_id, consumer_group, auto_ack,
message_types, offset)`: all five parameters are required positional
arguments — none carries a default in the signature.  The base initializer
receives `client_type='consumer'` and the five keys. -/
def MessageConsumer.call
    (consumer_id consumer_group auto_ack message_types offset : Option Value) :
    List BackendCall × Except PyTypeError Client :=
  match consumer_id, consumer_group, auto_ack, message_types, offset with
  | some cid, some cg, some aa, some mts, some off =>
      let (tr, c) := MessageBusClient.init "consumer"
        [("client_id", cid), ("consumer_group", cg),
          ("message_types", mts), ("auto_ack", aa), ("offset", off)]
      (tr, Except.ok c)
  | _, _, _, _, _ =>
      ([], Except.error
        ⟨(if consumer_id.isNone then ["consumer_id"] else []) ++
          (if consumer_group.isNone then ["consumer_group"] else []) ++
          (if auto_ack.isNone then ["auto_ack"] else []) ++
          (if message_types.isNone then ["message_types"] else []) ++
          (if offset.isNone then ["offset"] else [])⟩)

/-- One invocation of a `MessageBusClient` operation, with its arguments. -/
inductive Op where
  | list_message_types
  | register_message_type (message_types : List Value) (partitions : Int)
  | deregister_message_type (message_types : List Value)
  | add_concurrency (message_type : String) (concurrency_count : Int)
  | send (messages : List Msg)
  | delete
  | set_message_type_expire (message_type : String) (kwargs : Config)
  | receive (timeout : Value)
  | ack

/-- Executes one operation on a client object.  Each method body only reads
`self._client_conf`; none assigns to it, so the resulting object state is
transcribed directly from the source. -/
def step (c : Client) : Op → Client × (List BackendCall × Option MBError)
  | Op.list_message_types =>
      (c, MessageBusClient.list_message_types c.client_conf)
  | Op.register_message_type mts p =>
      (c, MessageBusClient.register_message_type c.client_conf mts p)
  | Op.deregister_message_type mts =>
      (c, MessageBusClient.deregister_message_type c.client_conf mts)
  | Op.add_concurrency mt cc =>
      (c, MessageBusClient.add_concurrency c.client_conf mt cc)
  | Op.send msgs => (c, MessageBusClient.send c.client_conf msgs)
  | Op.delete => (c, MessageBusClient.delete c.client_conf)
  | Op.set_message_type_expire mt kw =>
      (c, MessageBusClient.set_message_type_expire c.client_conf mt kw)
  | Op.receive t => (c, MessageBusClient.receive c.client_conf t)
  | Op.ack => (c, MessageBusClient.ack c.client_conf)

/-- Runs a sequence of operations, threading the client state. -/
def runOps (c : Client) : List Op → Client
  | [] => c
  | op :: rest => runOps (step c op).1 rest

/-! ### Helper lemmas -/

theorem lookup_isSome_iff_mem_keys (conf : Config) (key : String) :
    (conf.lookup key).isSome = true ↔ key ∈ Config.keys conf := by
  induction conf with
  | nil => simp [Config.keys]
  | cons hd tl ih =>
      obtain ⟨k, v⟩ := hd
      by_cases hk : key = k
      · subst hk
        simp [Config.keys, List.lookup]
      · have hbeq : (key == k) = false := by
          simp [hk]
        simp [Config.keys, List.lookup, hbeq, hk, ih]

/-- `_get_conf` characterized by dictionary lookup. -/
theorem get_conf_eq_lookup (conf : Config) (key : String) :
    MessageBusClient.get_conf conf key =
      match conf.lookup key with
      | some v => Except.ok v
      | none =>
          Except.error
            ⟨2, "Could not find key %s in client config %s",
              [Value.str key, Value.dict conf]⟩ := by
  unfold MessageBusClient.get_conf Config.getItem
  rcases h : conf.lookup key with _ | v
  · have hmem : key ∉ Config.keys conf := by
      intro hm
      have := (lookup_isSome_iff_mem_keys conf key).mpr hm
      simp [h] at this
    simp [hmem]
  · have hmem : key ∈ Config.keys conf := by
      apply (lookup_isSome_iff_mem_keys conf key).mp
      simp [h]
    simp [hmem, h]

theorem get_conf_ok_of_lookup {conf : Config} {key : String} {v : Value}
    (h : conf.lookup key = some v) :
    MessageBusClient.get_conf conf key = Except.ok v := by
  rw [get_conf_eq_lookup, h]

theorem get_conf_error_of_lookup {conf : Config} {key : String}
    (h : conf.lookup key = none) :
    MessageBusClient.get_conf conf key =
      Except.error
        ⟨2, "Could not find key %s in client config %s",
          [Value.str key, Value.dict conf]⟩ := by
  rw [get_conf_eq_lookup, h]

/-- The codec succeeds on a batch of valid messages, mapping each to its
wire string. -/
theorem get_str_message_list_ok (msgs : List Msg)
    (h : ∀ m ∈ msgs, Msg.isInvalid m = false) :
    MessageBusClient.get_str_message_list msgs =
      Except.ok (msgs.map Msg.toWire) := by
  induction msgs with
  | nil => rfl
  | cons hd tl ih =>
      have htl : ∀ m ∈ tl, Msg.isInvalid m = false := fun m hm =>
        h m (List.mem_cons_of_mem hd hm)
      have hhd := h hd (List.mem_cons_self hd tl)
      cases hd with
      | kv j =>
          simp [MessageBusClient.get_str_message_list, ih htl, Msg.toWire,
            Except.map]
      | str s =>
          simp [MessageBusClient.get_str_message_list, ih htl, Msg.toWire,
            Except.map]
      | other v => simp [Msg.isInvalid] at hhd

/-- The codec fails on a batch containing an invalid message, naming one of
the offending values. -/
theorem get_str_message_list_error (msgs : List Msg)
    (h : ∃ m ∈ msgs, Msg.isInvalid m = true) :
    ∃ v e, Msg.other v ∈ msgs
      ∧ MessageBusClient.get_str_message_list msgs = Except.error e
      ∧ e.rc = 22 ∧ e.args = [v] := by
  induction msgs with
  | nil => simp at h
  | cons hd tl ih =>
      cases hd with
      | kv j =>
          have htl : ∃ m ∈ tl, Msg.isInvalid m = true := by
            obtain ⟨m, hm, hinv⟩ := h
            rcases List.mem_cons.mp hm with hEq | hmem
            · subst hEq
              simp [Msg.isInvalid] at hinv
            · exact ⟨m, hmem, hinv⟩
          obtain ⟨v, e, hv, he, hrc, hargs⟩ := ih htl
          exact ⟨v, e, List.mem_cons_of_mem _ hv,
            by simp [MessageBusClient.get_str_message_list, he, Except.map],
            hrc, hargs⟩
      | str s =>
          have htl : ∃ m ∈ tl, Msg.isInvalid m = true := by
            obtain ⟨m, hm, hinv⟩ := h
            rcases List.mem_cons.mp hm with hEq | hmem
            · subst hEq
              simp [Msg.isInvalid] at hinv
            · exact ⟨m, hmem, hinv⟩
          obtain ⟨v, e, hv, he, hrc, hargs⟩ := ih htl
          exact ⟨v, e, List.mem_cons_of_mem _ hv,
            by simp [MessageBusClient.get_str_message_list, he, Except.map],
            hrc, hargs⟩
      | other v =>
          exact ⟨v,
            ⟨22, "Invalid message format,                     not of type KvPayload or str. %s",
              [v]⟩,
            List.mem_cons_self _ _, rfl, rfl, rfl⟩

/-- `send` on a fully configured client with a valid batch performs exactly
one backend send, forwarding the converted messages in input order. -/
theorem send_ok (conf : Config) (msgs : List Msg) (mt me cid : Value)
    (h1 : MessageBusClient.get_conf conf "message_type" = Except.ok mt)
    (h2 : MessageBusClient.get_conf conf "method" = Except.ok me)
    (h3 : MessageBusClient.get_conf conf "client_id" = Except.ok cid)
    (h4 : ∀ m ∈ msgs, Msg.isInvalid m = false) :
    MessageBusClient.send conf msgs =
      ([BackendCall.send cid mt me (msgs.map Msg.toWire)], none) := by
  simp [MessageBusClient.send, h1, h2, h3, get_str_message_list_ok msgs h4]

theorem step_fst (c : Client) (op : Op) : (step c op).1 = c := by
  cases op <;> rfl

/-! ### Claims -/

/-- Claim C1: `_get_conf` returns the stored value for a key exactly when
the key is present in the client configuration, and raises
`MessageBusError(ENOENT, ...)` exactly when it is absent; the raised error
names the failing key. -/
theorem C1_get_conf_required (conf : Config) (key : String) :
    (∀ v, MessageBusClient.get_conf conf key = Except.ok v ↔
      conf.lookup key = some v)
    ∧ (∀ e, MessageBusClient.get_conf conf key = Except.error e →
        conf.lookup key = none ∧ e.rc = 2 ∧ Value.str key ∈ e.args)
    ∧ (conf.lookup key = none →
        ∃ e, MessageBusClient.get_conf conf key = Except.error e
          ∧ e.rc = 2 ∧ Value.str key ∈ e.args) := by
  refine ⟨?_, ?_, ?_⟩
  · intro v
    rw [get_conf_eq_lookup]
    rcases h : conf.lookup key with _ | w <;> simp
  · intro e he
    rw [get_conf_eq_lookup] at he
    rcases h : conf.lookup key with _ | w
    · rw [h] at he
      simp only [Except.error.injEq] at he
      subst he
      simp
    · rw [h] at he
      simp at he
  · intro h
    rw [get_conf_eq_lookup, h]
    exact ⟨_, rfl, rfl, List.mem_cons_self _ _⟩

/-- Witness for C1 at a concrete configuration: a present key yields its
stored value, an absent key yields an ENOENT error naming the key. -/
theorem C1_witness :
    MessageBusClient.get_conf [("client_id", Value.str "a")] "client_id" =
      Except.ok (Value.str "a")
    ∧ ∃ e, MessageBusClient.get_conf [("client_id", Value.str "a")]
        "message_type" = Except.error e
        ∧ e.rc = 2 ∧ Value.str "message_type" ∈ e.args :=
  ⟨((C1_get_conf_required [("client_id", Value.str "a")] "client_id").1
      (Value.str "a")).mpr rfl,
    (C1_get_conf_required [("client_id", Value.str "a")] "message_type").2.2
      rfl⟩

/-- Claim C5: on a batch whose every element is a key-value document or a
string, the codec returns one string per input in input order — documents
map to their JSON serialization, strings pass through — and on an
all-string batch it is the identity. -/
theorem C5_codec_order_preserving (msgs : List Msg) (ss : List String) :
    ((∀ m ∈ msgs, Msg.isInvalid m = false) →
      MessageBusClient.get_str_message_list msgs =
        Except.ok (msgs.map Msg.toWire)
      ∧ (msgs.map Msg.toWire).length = msgs.length)
    ∧ MessageBusClient.get_str_message_list (ss.map Msg.str) =
        Except.ok ss := by
  constructor
  · intro h
    exact ⟨get_str_message_list_ok msgs h, by simp⟩
  · have h : ∀ m ∈ ss.map Msg.str, Msg.isInvalid m = false := by
      intro m hm
      obtain ⟨s, _, rfl⟩ := List.mem_map.mp hm
      rfl
    rw [get_str_message_list_ok _ h]
    congr 1
    clear h
    induction ss with
    | nil => rfl
    | cons hd tl ih => simp only [List.map_cons, Msg.toWire, ih]

/-- Witness for C5 at a concrete mixed batch and a concrete string batch. -/
theorem C5_witness :
    MessageBusClient.get_str_message_list
        [Msg.kv "j1", Msg.str "s1"] =
      Except.ok ([Msg.kv "j1", Msg.str "s1"].map Msg.toWire)
    ∧ MessageBusClient.get_str_message_list
        (["a", "b"].map Msg.str) = Except.ok ["a", "b"] :=
  ⟨((C5_codec_order_preserving [Msg.kv "j1", Msg.str "s1"] ["a", "b"]).1
      (by
        intro m hm
        rcases List.mem_cons.mp hm with rfl | hm
        · rfl
        · rcases List.mem_cons.mp hm with rfl | hm
          · rfl
          · cases hm)).1,
    (C5_codec_order_preserving [Msg.kv "j1", Msg.str "s1"] ["a", "b"]).2⟩

/-- Claim C8: the configuration is stored verbatim at construction and no
operation of the client mutates it: after any sequence of operations the
configuration, and everything observable through the accessor, equals the
configuration supplied at construction. -/
theorem C8_conf_immutable (client_type : String) (conf : Config)
    (ops : List Op) :
    (runOps (MessageBusClient.init client_type conf).2 ops).client_conf = conf
    ∧ ∀ c : Client, (runOps c ops).client_conf = c.client_conf
    ∧ ∀ key, MessageBusClient.get_conf (runOps c ops).client_conf key =
        MessageBusClient.get_conf c.client_conf key := by
  have hrun : ∀ (ops : List Op) (c : Client),
      (runOps c ops).client_conf = c.client_conf := by
    intro ops
    induction ops with
    | nil => intro c; rfl
    | cons op rest ih =>
        intro c
        rw [runOps, step_fst, ih]
  exact ⟨hrun ops _, fun c => ⟨hrun ops c, fun key => by rw [hrun ops c]⟩⟩

theorem get_conf_ok_of_mem_keys {conf : Config} {key : String}
    (h : key ∈ Config.keys conf) :
    ∃ v, MessageBusClient.get_conf conf key = Except.ok v := by
  have hs := (lookup_isSome_iff_mem_keys conf key).mpr h
  obtain ⟨w, hw⟩ := Option.isSome_iff_exists.mp hs
  exact ⟨w, get_conf_ok_of_lookup hw⟩

/-- Claim C2: `send` on a batch with an element that is neither a
`KvPayload` nor a string performs no backend send at all, and (once the
configuration keys resolve) fails with `MessageBusError(EINVAL, ...)`
naming an offending value of the batch. -/
theorem C2_send_all_or_nothing (conf : Config) (msgs : List Msg)
    (h : ∃ m ∈ msgs, Msg.isInvalid m = true) :
    (MessageBusClient.send conf msgs).1 = []
    ∧ ("message_type" ∈ Config.keys conf → "method" ∈ Config.keys conf →
        "client_id" ∈ Config.keys conf →
        ∃ v e, Msg.other v ∈ msgs
          ∧ MessageBusClient.send conf msgs = ([], some e)
          ∧ e.rc = 22 ∧ e.args = [v]) := by
  obtain ⟨v, e, hv, he, hrc, hargs⟩ := get_str_message_list_error msgs h
  constructor
  · rcases h1 : MessageBusClient.get_conf conf "message_type" with e1 | mt
    · simp [MessageBusClient.send, h1]
    rcases h2 : MessageBusClient.get_conf conf "method" with e2 | me
    · simp [MessageBusClient.send, h1, h2]
    rcases h3 : MessageBusClient.get_conf conf "client_id" with e3 | cid
    · simp [MessageBusClient.send, h1, h2, h3]
    simp [MessageBusClient.send, h1, h2, h3, he]
  · intro k1 k2 k3
    obtain ⟨mt, h1⟩ := get_conf_ok_of_mem_keys k1
    obtain ⟨me, h2⟩ := get_conf_ok_of_mem_keys k2
    obtain ⟨cid, h3⟩ := get_conf_ok_of_mem_keys k3
    exact ⟨v, e, hv,
      by simp [MessageBusClient.send, h1, h2, h3, he], hrc, hargs⟩

/-- Witness for C2: a configured client and a batch whose second element is
an integer — the backend send never happens and the EINVAL error names a
batch element. -/
theorem C2_witness :
    (MessageBusClient.send
        [("client_id", Value.str "c1"), ("message_type", Value.str "T"),
          ("method", Value.pyNone)]
        [Msg.str "ok", Msg.other (Value.int 5)]).1 = []
    ∧ ("message_type" ∈ Config.keys
          [("client_id", Value.str "c1"), ("message_type", Value.str "T"),
            ("method", Value.pyNone)] →
        "method" ∈ Config.keys
          [("client_id", Value.str "c1"), ("message_type", Value.str "T"),
            ("method", Value.pyNone)] →
        "client_id" ∈ Config.keys
          [("client_id", Value.str "c1"), ("message_type", Value.str "T"),
            ("method", Value.pyNone)] →
        ∃ v e, Msg.other v ∈ [Msg.str "ok", Msg.other (Value.int 5)]
          ∧ MessageBusClient.send
              [("client_id", Value.str "c1"), ("message_type", Value.str "T"),
                ("method", Value.pyNone)]
              [Msg.str "ok", Msg.other (Value.int 5)] = ([], some e)
          ∧ e.rc = 22 ∧ e.args = [v]) :=
  C2_send_all_or_nothing _ _
    ⟨Msg.other (Value.int 5),
      List.mem_cons_of_mem _ (List.mem_cons_self _ _), rfl⟩

/-- Claim C3: an Administrator's configuration holds only `client_id`, and
`send` on it fails with `MessageBusError(ENOENT, ...)` naming
`message_type`, with no backend call made for that operation. -/
theorem C3_admin_send_fails_fast (aid : Value) (msgs : List Msg) :
    MessageBusAdmin.call (some aid) =
      ([BackendCall.init_client "admin" [("client_id", aid)]],
        Except.ok ⟨[("client_id", aid)]⟩)
    ∧ ∃ e, MessageBusClient.send [("client_id", aid)] msgs = ([], some e)
        ∧ e.rc = 2 ∧ Value.str "message_type" ∈ e.args := by
  refine ⟨rfl, ?_⟩
  have h : MessageBusClient.get_conf [("client_id", aid)] "message_type" =
      Except.error
        ⟨2, "Could not find key %s in client config %s",
          [Value.str "message_type", Value.dict [("client_id", aid)]]⟩ :=
    get_conf_error_of_lookup rfl
  exact ⟨⟨2, "Could not find key %s in client config %s",
      [Value.str "message_type", Value.dict [("client_id", aid)]]⟩,
    by simp [MessageBusClient.send, h], rfl, List.mem_cons_self _ _⟩

/-- Claim C6: a fully configured client's `send` on a valid batch performs
exactly one backend send with the configured client id, message type and
method and the converted messages in input order; in particular the
Producer `p1`/`Alert`/`sync` scenario sends exactly
`["hello"]` under those identifiers. -/
theorem C6_producer_send_forwarding (conf : Config) (msgs : List Msg)
    (mt me cid : Value)
    (h1 : MessageBusClient.get_conf conf "message_type" = Except.ok mt)
    (h2 : MessageBusClient.get_conf conf "method" = Except.ok me)
    (h3 : MessageBusClient.get_conf conf "client_id" = Except.ok cid)
    (h4 : ∀ m ∈ msgs, Msg.isInvalid m = false) :
    MessageBusClient.send conf msgs =
      ([BackendCall.send cid mt me (msgs.map Msg.toWire)], none)
    ∧ MessageProducer.call (some (Value.str "p1")) (some (Value.str "Alert"))
        (some (Value.str "sync")) =
      ([BackendCall.init_client "producer"
          [("client_id", Value.str "p1"), ("message_type", Value.str "Alert"),
            ("method", Value.str "sync")]],
        Except.ok ⟨[("client_id", Value.str "p1"),
          ("message_type", Value.str "Alert"),
          ("method", Value.str "sync")]⟩)
    ∧ MessageBusClient.send
        [("client_id", Value.str "p1"), ("message_type", Value.str "Alert"),
          ("method", Value.str "sync")] [Msg.str "hello"] =
      ([BackendCall.send (Value.str "p1") (Value.str "Alert")
          (Value.str "sync") ["hello"]], none) := by
  refine ⟨send_ok conf msgs mt me cid h1 h2 h3 h4, rfl, ?_⟩
  exact send_ok _ [Msg.str "hello"] (Value.str "Alert") (Value.str "sync")
    (Value.str "p1") rfl rfl rfl
    (by
      intro m hm
      rcases List.mem_cons.mp hm with rfl | hm
      · rfl
      · cases hm)

/-- Witness for C6 at the concrete Producer configuration and the batch
`["hello"]`. -/
theorem C6_witness :
    MessageBusClient.send
        [("client_id", Value.str "p1"), ("message_type", Value.str "Alert"),
          ("method", Value.str "sync")] [Msg.str "hello"] =
      ([BackendCall.send (Value.str "p1") (Value.str "Alert")
          (Value.str "sync") ([Msg.str "hello"].map Msg.toWire)], none) :=
  (C6_producer_send_forwarding
    [("client_id", Value.str "p1"), ("message_type", Value.str "Alert"),
      ("method", Value.str "sync")] [Msg.str "hello"]
    (Value.str "Alert") (Value.str "sync") (Value.str "p1") rfl rfl rfl
    (by
      intro m hm
      rcases List.mem_cons.mp hm with rfl | hm
      · rfl
      · cases hm)).1

/-- Claim C9: a Producer constructed without a delivery method still stores
the `method` key with value `None`; `send` therefore does not fail on
`method` and forwards `None` to the backend as the delivery method. -/
theorem C9_producer_method_defaults_none (pid mt : Value) (msgs : List Msg)
    (h : ∀ m ∈ msgs, Msg.isInvalid m = false) :
    MessageProducer.call (some pid) (some mt) none =
      ([BackendCall.init_client "producer"
          [("client_id", pid), ("message_type", mt),
            ("method", Value.pyNone)]],
        Except.ok ⟨[("client_id", pid), ("message_type", mt),
          ("method", Value.pyNone)]⟩)
    ∧ MessageBusClient.get_conf
        [("client_id", pid), ("message_type", mt), ("method", Value.pyNone)]
        "method" = Except.ok Value.pyNone
    ∧ MessageBusClient.send
        [("client_id", pid), ("message_type", mt), ("method", Value.pyNone)]
        msgs =
      ([BackendCall.send pid mt Value.pyNone (msgs.map Msg.toWire)],
        none) := by
  refine ⟨rfl, rfl, ?_⟩
  exact send_ok _ msgs mt Value.pyNone pid rfl rfl rfl h

/-- Witness for C9 at a concrete Producer and batch. -/
theorem C9_witness :
    MessageProducer.call (some (Value.str "p1")) (some (Value.str "T"))
        none =
      ([BackendCall.init_client "producer"
          [("client_id", Value.str "p1"), ("message_type", Value.str "T"),
            ("method", Value.pyNone)]],
        Except.ok ⟨[("client_id", Value.str "p1"),
          ("message_type", Value.str "T"), ("method", Value.pyNone)]⟩)
    ∧ MessageBusClient.get_conf
        [("client_id", Value.str "p1"), ("message_type", Value.str "T"),
          ("method", Value.pyNone)] "method" = Except.ok Value.pyNone
    ∧ MessageBusClient.send
        [("client_id", Value.str "p1"), ("message_type", Value.str "T"),
          ("method", Value.pyNone)] [Msg.str "x"] =
      ([BackendCall.send (Value.str "p1") (Value.str "T") Value.pyNone
          ([Msg.str "x"].map Msg.toWire)], none) :=
  C9_producer_method_defaults_none (Value.str "p1") (Value.str "T")
    [Msg.str "x"]
    (by
      intro m hm
      rcases List.mem_cons.mp hm with rfl | hm
      · rfl
      · cases hm)

/-- Claim C10: `register_message_type` and `add_concurrency` validate
nothing beyond the presence of `client_id`: any types list (empty,
duplicated, ...) and any integer count (zero, negative, ...) are forwarded
to the backend unchanged. -/
theorem C10_register_concurrency_forward_unvalidated (conf : Config)
    (cid : Value) (message_types : List Value) (partitions : Int)
    (message_type : String) (concurrency_count : Int)
    (h : MessageBusClient.get_conf conf "client_id" = Except.ok cid) :
    MessageBusClient.register_message_type conf message_types partitions =
      ([BackendCall.register_message_type cid message_types partitions],
        none)
    ∧ MessageBusClient.add_concurrency conf message_type concurrency_count =
      ([BackendCall.add_concurrency cid message_type concurrency_count],
        none) := by
  constructor
  · simp [MessageBusClient.register_message_type, h]
  · simp [MessageBusClient.add_concurrency, h]

/-- Witness for C10: an empty types list, negative partition count and zero
concurrency count are all forwarded unchanged. -/
theorem C10_witness :
    MessageBusClient.register_message_type [("client_id", Value.str "c")]
        [] (-1) =
      ([BackendCall.register_message_type (Value.str "c") [] (-1)], none)
    ∧ MessageBusClient.add_concurrency [("client_id", Value.str "c")]
        "Alert" 0 =
      ([BackendCall.add_concurrency (Value.str "c") "Alert" 0], none) :=
  C10_register_concurrency_forward_unvalidated
    [("client_id", Value.str "c")] (Value.str "c") [] (-1) "Alert" 0 rfl

/-- Claim C4: for each role, omitting a required constructor argument makes
the call fail before the initializer body runs, so no backend call occurs;
and every successfully constructed specialization carries exactly its
role's required key set, so a specialization whose configuration misses a
required key cannot be constructed at all. -/
theorem C4_missing_required_key_no_backend_call :
    (∀ a : Option Value, a.isNone = true →
      ∃ e, MessageBusAdmin.call a = ([], Except.error e))
    ∧ (∀ pid mt me : Option Value, pid.isNone = true ∨ mt.isNone = true →
      ∃ e, MessageProducer.call pid mt me = ([], Except.error e))
    ∧ (∀ cid cg aa mts off : Option Value,
        cid.isNone = true ∨ cg.isNone = true ∨ aa.isNone = true ∨
          mts.isNone = true ∨ off.isNone = true →
      ∃ e, MessageConsumer.call cid cg aa mts off = ([], Except.error e))
    ∧ (∀ (a : Option Value) (tr : List BackendCall) (c : Client),
        MessageBusAdmin.call a = (tr, Except.ok c) →
        Config.keys c.client_conf = ["client_id"])
    ∧ (∀ (pid mt me : Option Value) (tr : List BackendCall) (c : Client),
        MessageProducer.call pid mt me = (tr, Except.ok c) →
        Config.keys c.client_conf = ["client_id", "message_type", "method"])
    ∧ (∀ (cid cg aa mts off : Option Value) (tr : List BackendCall)
        (c : Client),
        MessageConsumer.call cid cg aa mts off = (tr, Except.ok c) →
        Config.keys c.client_conf =
          ["client_id", "consumer_group", "message_types", "auto_ack",
            "offset"]) := by
  refine ⟨?_, ?_, ?_, ?_, ?_, ?_⟩
  · intro a ha
    cases a with
    | none => exact ⟨⟨["admin_id"]⟩, rfl⟩
    | some v => simp [Option.isNone] at ha
  · intro pid mt me ha
    cases pid with
    | none => exact ⟨_, rfl⟩
    | some p =>
        cases mt with
        | none => exact ⟨_, rfl⟩
        | some m => simp [Option.isNone] at ha
  · intro cid cg aa mts off ha
    cases cid with
    | none => exact ⟨_, rfl⟩
    | some v1 =>
        cases cg with
        | none => exact ⟨_, rfl⟩
        | some v2 =>
            cases aa with
            | none => exact ⟨_, rfl⟩
            | some v3 =>
                cases mts with
                | none => exact ⟨_, rfl⟩
                | some v4 =>
                    cases off with
                    | none => exact ⟨_, rfl⟩
                    | some v5 => simp [Option.isNone] at ha
  · intro a tr c h
    cases a with
    | none => simp [MessageBusAdmin.call] at h
    | some v =>
        simp [MessageBusAdmin.call, MessageBusClient.init,
          Prod.ext_iff] at h
        rw [← h.2]
        rfl
  · intro pid mt me tr c h
    cases pid with
    | none => simp [MessageProducer.call] at h
    | some p =>
        cases mt with
        | none => simp [MessageProducer.call] at h
        | some m =>
            simp [MessageProducer.call, MessageBusClient.init,
              Prod.ext_iff] at h
            rw [← h.2]
            rfl
  · intro cid cg aa mts off tr c h
    cases cid with
    | none => simp [MessageConsumer.call] at h
    | some v1 =>
        cases cg with
        | none => simp [MessageConsumer.call] at h
        | some v2 =>
            cases aa with
            | none => simp [MessageConsumer.call] at h
            | some v3 =>
                cases mts with
                | none => simp [MessageConsumer.call] at h
                | some v4 =>
                    cases off with
                    | none => simp [MessageConsumer.call] at h
                    | some v5 =>
                        simp [MessageConsumer.call, MessageBusClient.init,
                          Prod.ext_iff] at h
                        rw [← h.2]
                        rfl

/-- Witness for C4: each role called with a missing required argument fails
with no backend call, and a successful Producer construction carries the
full required key set. -/
theorem C4_witness :
    (∃ e, MessageBusAdmin.call Option.none = ([], Except.error e))
    ∧ (∃ e, MessageProducer.call Option.none (some (Value.str "Alert"))
        Option.none = ([], Except.error e))
    ∧ (∃ e, MessageConsumer.call (some (Value.str "c1"))
        (some (Value.str "g1")) (some (Value.str "True"))
        (some (Value.list [Value.str "Alert"])) Option.none =
          ([], Except.error e))
    ∧ Config.keys
        (MessageBusClient.init "producer"
          [("client_id", Value.str "p1"),
            ("message_type", Value.str "Alert"),
            ("method", Value.str "sync")]).2.client_conf =
        ["client_id", "message_type", "method"] :=
  ⟨C4_missing_required_key_no_backend_call.1 Option.none rfl,
    C4_missing_required_key_no_backend_call.2.1 Option.none
      (some (Value.str "Alert")) Option.none (Or.inl rfl),
    C4_missing_required_key_no_backend_call.2.2.1 (some (Value.str "c1"))
      (some (Value.str "g1")) (some (Value.str "True"))
      (some (Value.list [Value.str "Alert"])) Option.none
      (Or.inr (Or.inr (Or.inr (Or.inr rfl)))),
    C4_missing_required_key_no_backend_call.2.2.2.2.1
      (some (Value.str "p1")) (some (Value.str "Alert"))
      (some (Value.str "sync")) _ _ rfl⟩

/-- Counterexample to claim C7 as stated: `MessageConsumer.__init__`
declares no default for `offset`, so constructing a Consumer without
supplying the offset raises a `TypeError` and yields no configuration at
all — not a configuration with `offset = "earliest"`. -/
theorem C7_counterexample :
    MessageConsumer.call (some (Value.str "c1")) (some (Value.str "g1"))
      (some (Value.str "True")) (some (Value.list [Value.str "Alert"]))
      Option.none = ([], Except.error ⟨["offset"]⟩) := rfl

/-- Claim C7 (amended): the Consumer constructor takes the consumer id,
consumer group, auto-ack flag, message types and offset, all required (the
offset has no constructor default); the resulting configuration contains
exactly the keys client_id, consumer_group, message_types, auto_ack and
offset with the supplied values. -/
theorem C7_consumer_config_exact (cid cg aa mts off : Value) :
    MessageConsumer.call (some cid) (some cg) (some aa) (some mts)
        (some off) =
      ([BackendCall.init_client "consumer"
          [("client_id", cid), ("consumer_group", cg),
            ("message_types", mts), ("auto_ack", aa), ("offset", off)]],
        Except.ok ⟨[("client_id", cid), ("consumer_group", cg),
          ("message_types", mts), ("auto_ack", aa), ("offset", off)]⟩)
    ∧ MessageConsumer.call (some cid) (some cg) (some aa) (some mts)
        Option.none = ([], Except.error ⟨["offset"]⟩) := ⟨rfl, rfl⟩

end CortxMessageBus
